import Mathlib

/-!
Shallow embedding of the scan-lifecycle core of the Serverless-HostScanner
webserver (`src/webserver/app/api/routes/scan.py` and
`src/webserver/app/tasks.py`), together with theorems settling the frozen
claims about the natural-language specification.

Conventions:
* Python strings are Lean `String`; Python `None`-able values are `Option`.
* Wall-clock instants handed to the code (`time.time()`, `now_utc()`) are
  explicit `Nat` parameters (seconds); `datetime` values parsed from scanner
  output are an explicit `PyDateTime` structure.
* Database rows are explicit structures; a DB-mutating Python function becomes
  a Lean function from the old row (plus the values it queries) to the new row.
* `list(set(xs))` in Python enumerates a hash set in an unspecified order; it
  is embedded as an explicit enumeration argument `order` constrained by
  `PySetOrder` (the result is some permutation of the distinct elements).
* String primitives are re-implemented over `List Char` by structural
  recursion so that every definition evaluates inside the kernel.
-/

namespace HostScanner

/-- Severity enum from `app/models/finding.py`. -/
inductive Severity where
  | info
  | low
  | medium
  | high
  | critical
deriving DecidableEq, Repr

/-- PortState enum from `app/models/finding.py`. -/
inductive PortState where
  | «open»
  | closed
  | filtered
  | unknown
deriving DecidableEq, Repr

/-- ScanStatus enum from `app/models/scan.py`. -/
inductive ScanStatus where
  | pending
  | running
  | completed
  | failed
deriving DecidableEq, Repr

/-- The `.value` string of a `ScanStatus` member. -/
def ScanStatus.value : ScanStatus → String
  | .pending => "pending"
  | .running => "running"
  | .completed => "completed"
  | .failed => "failed"

/-! ## Python string helpers -/

/-- Worker for `pySplit`: split `s` on the non-empty separator `sep`,
accumulating the current piece in reverse in `acc`.  The fuel starts at the
length of `s` and bounds the recursion structurally. -/
def pySplitAux (sep : List Char) : Nat → List Char → List Char → List (List Char)
  | _, [], acc => [acc.reverse]
  | 0, _ :: _, acc => [acc.reverse]
  | Nat.succ fuel, c :: rest, acc =>
      if sep.isPrefixOf (c :: rest) then
        acc.reverse :: pySplitAux sep fuel ((c :: rest).drop sep.length) []
      else
        pySplitAux sep fuel rest (c :: acc)

/-- Python `s.split(sep)` for a non-empty separator (also Lean's
`String.splitOn`): the pieces of `s` between non-overlapping occurrences of
`sep`, scanned left to right. -/
def pySplit (s sep : String) : List String :=
  (pySplitAux sep.data s.data.length s.data []).map List.asString

/-- Python `sub in s` (substring containment) for a non-empty pattern:
`s.split(sub)` has at least two pieces exactly when `sub` occurs in `s`. -/
def pyContains (s sub : String) : Bool :=
  (pySplit s sub).length ≥ 2

/-- Python `s.split(sep)[1]` with a default for the impossible missing case:
the text between the first and second occurrence of `sep`. -/
def pySplitSecond (s sep : String) : String :=
  (pySplit s sep).getD 1 ""

/-- Python `s.startswith(pre)`. -/
def pyStartsWith (s pre : String) : Bool :=
  pre.data.isPrefixOf s.data

/-- ASCII lower-casing of one character. -/
def asciiLower (c : Char) : Char :=
  if 'A' ≤ c ∧ c ≤ 'Z' then Char.ofNat (c.toNat + 32) else c

/-- Python `str.lower()` restricted to ASCII (scanner output and all rule
keywords are ASCII). -/
def pyLower (s : String) : String :=
  (s.data.map asciiLower).asString

/-- Python `s.rstrip("/")`: drop every trailing `/`. -/
def pyRstripSlash (s : String) : String :=
  (s.data.reverse.dropWhile (fun c => c = '/')).reverse.asString

/-- Python `str.strip()`: drop leading and trailing whitespace. -/
def pyStrip (s : String) : String :=
  ((s.data.dropWhile Char.isWhitespace).reverse.dropWhile Char.isWhitespace).reverse.asString

/-- Python `s.splitlines()` for `\n`-separated text (the scanner's script
output uses plain `\n` line endings). -/
def pySplitLines (s : String) : List String :=
  pySplit s "\n"

/-- Numeric value of a decimal digit string (each char already checked to be
a digit where this is used). -/
def digitsToNat (s : String) : Nat :=
  s.data.foldl (fun n c => n * 10 + (c.toNat - 48)) 0

/-- All characters are decimal digits (Python `str.isdigit` on ASCII). -/
def allDigits (s : String) : Bool :=
  s.data.all Char.isDigit

/-! ## Python `ipaddress` model (IPv4 fragment)

`is_private_ip`, the CIDR test and the range test in
`app/api/routes/scan.py` go through `ipaddress.ip_address` /
`ipaddress.ip_network`.  The embedding models the IPv4 dotted-quad forms
(IPv6 literals and dotted-netmask CIDR forms are outside every claim's
inputs and are treated as parse failures). -/

/-- One dotted-quad octet per `ipaddress._ip_int_from_string`: 1–3 decimal
digits, value ≤ 255, leading zeros rejected. -/
def ipv4OctetOk (s : String) : Bool :=
  s.data.length ≥ 1 ∧ s.data.length ≤ 3 ∧ allDigits s ∧
    (s.data.length = 1 ∨ s.data.head? ≠ some '0') ∧ digitsToNat s ≤ 255

/-- Parse a dotted-quad IPv4 address string to its 32-bit value. -/
def parseIPv4 (s : String) : Option Nat :=
  match pySplit s "." with
  | [a, b, c, d] =>
      if ipv4OctetOk a ∧ ipv4OctetOk b ∧ ipv4OctetOk c ∧ ipv4OctetOk d then
        some (digitsToNat a * 16777216 + digitsToNat b * 65536 +
              digitsToNat c * 256 + digitsToNat d)
      else none
  | _ => none

/-- Membership of a 32-bit value in the network `base/len`. -/
def inNet (v base len : Nat) : Bool :=
  v / 2 ^ (32 - len) = base / 2 ^ (32 - len)

/-- `IPv4Address.is_private` (CPython `_private_networks` list). -/
def ipv4IsPrivate (v : Nat) : Bool :=
  inNet v 0 8 ∨                      -- 0.0.0.0/8
  inNet v 167772160 8 ∨              -- 10.0.0.0/8
  inNet v 2130706432 8 ∨             -- 127.0.0.0/8
  inNet v 2851995648 16 ∨            -- 169.254.0.0/16
  inNet v 2886729728 12 ∨            -- 172.16.0.0/12
  inNet v 3221225472 29 ∨            -- 192.0.0.0/29
  inNet v 3221225642 31 ∨            -- 192.0.0.170/31
  inNet v 3221225984 24 ∨            -- 192.0.2.0/24
  inNet v 3232235520 16 ∨            -- 192.168.0.0/16
  inNet v 3323068416 15 ∨            -- 198.18.0.0/15
  inNet v 3325256704 24 ∨            -- 198.51.100.0/24
  inNet v 3405803776 24 ∨            -- 203.0.113.0/24
  inNet v 4026531840 4 ∨             -- 240.0.0.0/4
  v = 4294967295                     -- 255.255.255.255/32

/-- `is_private_ip` from `app/api/routes/scan.py`: parse with
`ipaddress.ip_address`, return `.is_private`; `ValueError` yields `False`. -/
def is_private_ip (ip_str : String) : Bool :=
  match parseIPv4 ip_str with
  | some v => ipv4IsPrivate v
  | none => false

/-- Parse `ipaddress.ip_network(target, strict=False)`: a bare address is a
`/32`; otherwise `addr/len` with a decimal suffix ≤ 32.  Returns the pair
(address value, mask length). -/
def parseIPv4Network (s : String) : Option (Nat × Nat) :=
  match pySplit s "/" with
  | [addr] => (parseIPv4 addr).map (fun v => (v, 32))
  | [addr, len] =>
      match parseIPv4 addr with
      | some v =>
          if len.data.length ≥ 1 ∧ allDigits len ∧ digitsToNat len ≤ 32 then
            some (v, digitsToNat len)
          else none
      | none => none
  | _ => none

/-- `IPv4Network.is_private`: the network address and the broadcast address
are both private. -/
def ipv4NetworkIsPrivate (v len : Nat) : Bool :=
  let low := v / 2 ^ (32 - len) * 2 ^ (32 - len)
  let high := low + (2 ^ (32 - len) - 1)
  ipv4IsPrivate low ∧ ipv4IsPrivate high

/-- The CIDR branch of `clean_target_list`: `True` exactly when the target
parses as a network and that network is private (the `continue` case). -/
def privateNetworkTest (target : String) : Bool :=
  match parseIPv4Network target with
  | some (v, len) => ipv4NetworkIsPrivate v len
  | none => false

/-! ## Target Normalizer (`clean_target_list`, `app/api/routes/scan.py`) -/

/-- `urlparse(target)` for a target starting with `http://` or `https://`,
then `parsed.netloc or parsed.path`: the authority is the text between `//`
and the first `/`, `?` or `#`; when it is empty the path (up to `?`/`#`) is
used instead. -/
def urlNetlocOrPath (target : String) : String :=
  let rest :=
    if pyStartsWith target "http://" then (target.data.drop 7).asString
    else (target.data.drop 8).asString
  let netloc := (rest.data.takeWhile (fun c => ¬(c = '/' ∨ c = '?' ∨ c = '#'))).asString
  if netloc ≠ "" then netloc
  else (rest.data.takeWhile (fun c => ¬(c = '?' ∨ c = '#'))).asString

/-- The first normalization steps of `clean_target_list` applied to one raw
target: strip a leading URL scheme via `urlparse`, then `rstrip("/")`. -/
def normalizeTarget (target : String) : String :=
  let t :=
    if pyStartsWith target "http://" ∨ pyStartsWith target "https://" then
      urlNetlocOrPath target
    else target
  pyRstripSlash t

/-- One group of the range regex `\d{1,3}`: one to three decimal digits. -/
def rangeGroupOk (s : String) : Bool :=
  s.data.length ≥ 1 ∧ s.data.length ≤ 3 ∧ allDigits s

/-- Match of `ip_range_pattern = ^(\d{1,3}(?:\.\d{1,3}){3})-(\d{1,3}(?:\.\d{1,3}){0,3})$`:
returns the two captured groups.  The groups contain only digits and dots, so
the match succeeds exactly when the target splits on `-` into two such
pieces, the first with four groups and the second with one to four. -/
def ipRangeMatch (target : String) : Option (String × String) :=
  match pySplit target "-" with
  | [a, b] =>
      let ga := pySplit a "."
      let gb := pySplit b "."
      if ga.length = 4 ∧ ga.all rangeGroupOk ∧
         gb.length ≥ 1 ∧ gb.length ≤ 4 ∧ gb.all rangeGroupOk then
        some (a, b)
      else none
  | _ => none

/-- The IP-range branch of `clean_target_list`: `True` exactly when the
target matches the range regex, the (possibly suffix-expanded) endpoints both
parse as addresses, and at least one endpoint is private (the `continue`
case).  A `ValueError` while parsing an endpoint falls through (`pass`). -/
def privateRangeTest (target : String) : Bool :=
  match ipRangeMatch target with
  | none => false
  | some (start_ip, end_suffix) =>
      let end_ip :=
        if ¬ pyContains end_suffix "." then
          ((pySplit start_ip ".").take 3 ++ [end_suffix]).intersperse "." |>.foldl
            (fun acc s => acc ++ s) ""
        else end_suffix
      match parseIPv4 start_ip, parseIPv4 end_ip with
      | some vs, some ve => ipv4IsPrivate vs ∨ ipv4IsPrivate ve
      | _, _ => false

/-- The per-target body of `clean_target_list`'s loop: normalize, then keep
the target unless it is empty, a private network (CIDR branch), a private
range (range branch) or a private address. -/
def cleanTargetKeep (target : String) : Option String :=
  let t := normalizeTarget target
  if t = "" then none
  else if privateNetworkTest t then none
  else if privateRangeTest t then none
  else if is_private_ip t then none
  else some t

/-- The list `cleaned` accumulated by `clean_target_list` before the final
`list(set(cleaned))`. -/
def cleanedAccum (targets : List String) : List String :=
  targets.filterMap cleanTargetKeep

/-- An admissible enumeration of a Python `set` built by insertion from a
list: `list(set(xs))` is some permutation of the distinct elements of `xs`
(CPython string hashing is randomized, so the order is unspecified). -/
def PySetOrder (order : List String → List String) : Prop :=
  ∀ l : List String, (order l).Perm l.dedup

/-- One admissible `set` enumeration (`List.dedup` keeps the last
occurrence of each duplicate). -/
def dedupOrder (l : List String) : List String :=
  l.dedup

/-- Another admissible `set` enumeration: the reverse of `dedupOrder`. -/
def revDedupOrder (l : List String) : List String :=
  l.dedup.reverse

/-- `clean_target_list(targets)` from `app/api/routes/scan.py`,
parameterized by the `set` enumeration used for the final
`list(set(cleaned))`. -/
def clean_target_list (order : List String → List String)
    (targets : List String) : List String :=
  order (cleanedAccum targets)

/-! ## Target creation (`get_or_create_targets` and `start_scan`) -/

/-- The list of names that `get_or_create_targets(target_names, ...)` looks
up or inserts as `Target.name`, verbatim: the input deduplicated through
`list(set(...))` and with empty strings removed.  Each surviving name is
used unchanged for the `filter_by(user_id, name)` lookup and, on a miss, for
`Target(user_id=..., name=target_name)`. -/
def get_or_create_target_names (order : List String → List String)
    (target_names : List String) : List String :=
  (order target_names).filter (fun t => t ≠ "")

/-- The target names `start_scan` resolves or creates: step 3 of the handler
calls `get_or_create_targets(targets, db_user, db)` on the **raw** request
targets (the cleaned list is computed separately into `payload["targets"]`
and is only sent to the external scanner). -/
def start_scan_target_names (order : List String → List String)
    (targets : List String) : List String :=
  get_or_create_target_names order targets

/-! ## Naive `datetime` model (`classify_script` in `app/tasks.py`)

`classify_script` compares `datetime.utcnow()` against timestamps parsed
with `datetime.fromisoformat`.  A naive datetime is modelled by its calendar
fields; ordering and subtraction go through seconds-since-epoch. -/

structure PyDateTime where
  year : Nat
  month : Nat
  day : Nat
  hour : Nat
  minute : Nat
  second : Nat
deriving DecidableEq, Repr

/-- Days from 1970-01-01 for a civil date (Howard Hinnant's algorithm, as
used by every proleptic-Gregorian implementation). -/
def daysFromCivil (y m d : Int) : Int :=
  let y1 := if m ≤ 2 then y - 1 else y
  let era := (if y1 ≥ 0 then y1 else y1 - 399) / 400
  let yoe := y1 - era * 400
  let mp := (m + 9) % 12
  let doy := (153 * mp + 2) / 5 + d - 1
  let doe := yoe * 365 + yoe / 4 - yoe / 100 + doy
  era * 146097 + doe - 719468

/-- Seconds since 1970-01-01T00:00:00 (naive); `datetime` comparison and
subtraction agree with comparison and subtraction of these values. -/
def PyDateTime.toSecs (dt : PyDateTime) : Int :=
  daysFromCivil dt.year dt.month dt.day * 86400 +
    dt.hour * 3600 + dt.minute * 60 + dt.second

/-- Days in a month of the proleptic Gregorian calendar. -/
def daysInMonth (y m : Nat) : Nat :=
  if m = 2 then
    if y % 4 = 0 ∧ (y % 100 ≠ 0 ∨ y % 400 = 0) then 29 else 28
  else if m = 4 ∨ m = 6 ∨ m = 9 ∨ m = 11 then 30
  else 31

/-- Numeric value of one ASCII digit. -/
def digitVal (c : Char) : Option Nat :=
  if c.isDigit then some (c.toNat - 48) else none

/-- Two-digit field of an ISO timestamp. -/
def twoDigits (c1 c2 : Char) : Option Nat :=
  match digitVal c1, digitVal c2 with
  | some a, some b => some (a * 10 + b)
  | _, _ => none

/-- The `HH[:MM[:SS]]` time part accepted by `datetime.fromisoformat`
(fractional seconds are not used by the scanner's certificate output and are
not modelled). -/
def parseIsoTime : List Char → Option (Nat × Nat × Nat)
  | [h1, h2] => (twoDigits h1 h2).map (fun h => (h, 0, 0))
  | [h1, h2, ':', m1, m2] =>
      match twoDigits h1 h2, twoDigits m1 m2 with
      | some h, some m => some (h, m, 0)
      | _, _ => none
  | [h1, h2, ':', m1, m2, ':', s1, s2] =>
      match twoDigits h1 h2, twoDigits m1 m2, twoDigits s1 s2 with
      | some h, some m, some s => some (h, m, s)
      | _, _, _ => none
  | _ => none

/-- `datetime.fromisoformat`: `YYYY-MM-DD`, optionally followed by a single
separator character (the scanner emits `T` or a space) and a time part;
field ranges are validated, a failure is Python's `ValueError`. -/
def fromisoformat (s : String) : Option PyDateTime :=
  match s.data with
  | y1 :: y2 :: y3 :: y4 :: '-' :: m1 :: m2 :: '-' :: d1 :: d2 :: rest =>
      match digitVal y1, digitVal y2, digitVal y3, digitVal y4,
            twoDigits m1 m2, twoDigits d1 d2 with
      | some a, some b, some c, some d, some mo, some da =>
          let y := ((a * 10 + b) * 10 + c) * 10 + d
          if 1 ≤ mo ∧ mo ≤ 12 ∧ 1 ≤ da ∧ da ≤ daysInMonth y mo then
            match rest with
            | [] => some ⟨y, mo, da, 0, 0, 0⟩
            | _ :: timeCs =>
                match parseIsoTime timeCs with
                | some (h, mi, se) =>
                    if h ≤ 23 ∧ mi ≤ 59 ∧ se ≤ 59 then
                      some ⟨y, mo, da, h, mi, se⟩
                    else none
                | none => none
          else none
      | _, _, _, _, _, _ => none
  | _ => none

/-! ## Finding Classifier (`app/tasks.py`) -/

/-- `SCRIPT_RULES.get(name)` followed by the `if rule:` truthiness test:
the table entries whose value is a `(severity, recommendation)` pair.  The
keys `ssl-cert`, `ssl-enum-ciphers` and `http-sql-injection` are present in
the source dict with value `None`, which is falsy, so they behave exactly
like missing keys here and fall through to the custom logic. -/
def SCRIPT_RULES : String → Option (Severity × String)
  | "ssl-poodle" => some (.critical, "Vulnerable to POODLE (CVE-2014-3566): disable SSLv3, enforce TLS1.2+ and remove RC4 ciphers.")
  | "ssl-heartbleed" => some (.high, "Vulnerable to Heartbleed (CVE-2014-0160): upgrade OpenSSL to a non-vulnerable version.")
  | "mysql-vuln-cve2012-2122" => some (.critical, "MySQL vulnerable to CVE-2012-2122: patch or upgrade MySQL, restrict remote access and enforce strong credentials.")
  | "ssh-publickey-acceptance" => some (.high, "SSH public key acceptance: verify authorized_keys policies, remove unrecognized keys, and rotate keys regularly.")
  | "xmpp-brute" => some (.high, "XMPP brute-force susceptible: implement account lockouts, enforce strong password policies, and enable rate limiting.")
  | "http-headers" => some (.low, "Review and enforce security headers (CSP, X-Frame-Options, HSTS, X-Content-Type-Options) to harden web responses.")
  | "http-phpself-xss" => some (.critical, "PHP self-XSS vulnerability: sanitize input data, validate user input, and implement proper escaping.")
  | "http-xssed" => some (.critical, "XSS vulnerability: sanitize input data, validate user input, and implement proper escaping.")
  | "http-csrf" => some (.high, "Missing CSRF protection: implement anti-CSRF tokens, enforce SameSite cookie attributes, and validate origin headers.")
  | "samba-vuln-cve-2012-1182" => some (.high, "Samba vulnerable to CVE-2012-1182: update Samba to a patched version, disable anonymous shares, and restrict SMB access.")
  | "http-frontpage-login" => some (.medium, "FrontPage services exposed: disable FrontPage extensions or secure with authentication and remove legacy code.")
  | "http-wordpress-brute" => some (.medium, "WordPress brute-force detected: enforce strong admin credentials, implement login throttling, and use a web application firewall (WAF).")
  | "http-vuln-cve2010-2861" => some (.high, "Vulnerable to CVE-2010-2861: patch the affected HTTP service or upgrade to a secure software version.")
  | "http-shellshock" => some (.critical, "Vulnerable to Shellshock (CVE-2014-6271): update Bash to a patched version and reload all shell services.")
  | "http-title" => some (.info, "Page titles exposed: remove default or sensitive information from HTTP title tags.")
  | "http-server-header" => some (.info, "Server header disclosure: remove or obfuscate server version to reduce fingerprinting risk.")
  | "auth-spoof" => some (.high, "Authentication spoofing possible: verify authentication flows, use CSRF tokens, and enforce secure cookies.")
  | _ => none

/-- The last `Not valid before:`/`Not valid after:` value scraped from the
output: the loop overwrites the variable on every matching line with
`line.split(label)[1].strip()`. -/
def extractSslField (label : String) (output : String) : Option String :=
  (pySplitLines output).foldl
    (fun acc line =>
      if pyContains line label then some (pyStrip (pySplitSecond line label))
      else acc)
    none

/-- `normalize(ts)` inside `classify_script`: if the part after the last `T`
has exactly two `:`-separated components, append `:00`. -/
def normalizeTs (ts : String) : String :=
  if (pySplit ((pySplit ts "T").getLastD "") ":").length = 2 then ts ++ ":00"
  else ts

/-- The guarded parse of one scraped timestamp string inside the `try`
block: a falsy (absent or empty) value is left alone, a truthy one is parsed
and a parse failure is the `ValueError` that aborts both parses. -/
def sslTryParse : Option String → Except Unit (Option PyDateTime)
  | none => .ok none
  | some s =>
      if s = "" then .ok none
      else
        match fromisoformat (normalizeTs s) with
        | some dt => .ok (some dt)
        | none => .error ()

/-- The `ssl-cert` branch of `classify_script`. -/
def classifySslCert (now : PyDateTime) (output : String) : Severity × String :=
  let nvb := extractSslField "Not valid before:" output
  let nva := extractSslField "Not valid after:" output
  match sslTryParse nvb, sslTryParse nva with
  | .error _, _ => (.info, "SSL certificate validity could not be parsed; review manually.")
  | _, .error _ => (.info, "SSL certificate validity could not be parsed; review manually.")
  | .ok b, .ok a =>
      match b, a with
      | some bd, some ad =>
          if bd.toSecs ≤ now.toSecs ∧ now.toSecs ≤ ad.toSecs then
            (.info, "SSL certificate is valid; ensure strong signature and key size.")
          else if ad.toSecs - now.toSecs < 30 * 86400 then
            (.medium, "SSL certificate is expiring soon; renew the certificate.")
          else
            (.high, "SSL certificate is expired; renew the certificate.")
      | _, _ => (.info, "SSL certificate details incomplete; review manually.")

/-- The `http-sql-injection` line scan of `classify_script`: the first line
containing `vulnerable` (case-insensitive) returns CRITICAL, otherwise the
first line containing `possible` returns HIGH, each cutting the loop short. -/
def sqlInjectionScan : List String → Severity × String
  | [] => (.high, "SQL injection vulnerability: no vulnerability found.")
  | line :: rest =>
      if pyContains (pyLower line) "vulnerable" then
        (.critical, "SQL injection vulnerability: sanitize and parameterize inputs, use prepared statements, and deploy WAF rules.")
      else if pyContains (pyLower line) "possible" then
        (.high, "SQL injection vulnerability: possible vulnerability found.")
      else sqlInjectionScan rest

/-- Python `str(x)` of an optional script id (`None` prints as `None`). -/
def optStrRepr : Option String → String
  | none => "None"
  | some s => s

/-- `classify_script(script)` from `app/tasks.py`.  `now` is the
`datetime.utcnow()` the function reads; `name` is `script.get('id')` and
`output` is `script.get('output', '')`. -/
def classify_script (now : PyDateTime) (name : Option String) (output : String) :
    Severity × String :=
  match name.bind SCRIPT_RULES with
  | some rule => rule
  | none =>
      if name = some "ssl-cert" then
        classifySslCert now output
      else if name = some "ssl-enum-ciphers" then
        if pyContains (pyLower output) "rc4" ∨ pyContains (pyLower output) "3des" ∨
           pyContains (pyLower output) "md5" then
          (.medium, "Disable weak TLS ciphers (RC4, 3DES, MD5).")
        else (.low, "Cipher suite is strong.")
      else if name = some "http-sql-injection" then
        sqlInjectionScan (pySplitLines output)
      else
        (.info, "Script " ++ optStrRepr name ++ " ran; review output.")

/-- `PORT_RULES` from `app/tasks.py`. -/
def PORT_RULES : Int → Option (Severity × String)
  | 22 => some (.medium, "SSH open: enforce key-based auth, disable root login, and implement rate limiting.")
  | 23 => some (.high, "Telnet open: credentials are sent in cleartext; disable Telnet and use SSH.")
  | 21 => some (.medium, "FTP open: unencrypted data flow; disable anonymous login or switch to SFTP/FTPS.")
  | 80 => some (.low, "HTTP open: traffic is unencrypted; redirect HTTP to HTTPS and implement HSTS.")
  | 443 => some (.low, "HTTPS open: ensure certificates are valid, use TLS1.2+ and strong cipher suites.")
  | 25 => some (.medium, "SMTP open: verify no open relay, enforce authentication and restrict relay hosts.")
  | 3389 => some (.high, "RDP open: potential lateral movement; restrict source IPs, enforce MFA and network-level auth.")
  | 445 => some (.medium, "SMBv1 open: vulnerable to multiple RCE exploits (e.g. EternalBlue); disable SMBv1 and apply security patches.")
  | 139 => some (.medium, "NetBIOS is open; disable NetBIOS and use SMBv3.")
  | 135 => some (.medium, "RPC is open; disable RPC and use SMBv3.")
  | 111 => some (.medium, "RPC is open; disable RPC and use SMBv3.")
  | 110 => some (.medium, "POP3 is open; disable POP3 and use IMAP.")
  | 143 => some (.medium, "IMAP is open; disable IMAP and use POP3.")
  | 993 => some (.medium, "IMAP is open; disable IMAP and use POP3.")
  | 995 => some (.medium, "POP3 is open; disable POP3 and use IMAP.")
  | 587 => some (.medium, "SMTP is open; disable SMTP and use SMTP over TLS.")
  | 465 => some (.medium, "SMTP is open; disable SMTP and use SMTP over TLS.")
  | 563 => some (.medium, "NNTP is open; disable NNTP and use NNTP over TLS.")
  | _ => none

/-- A dict of a script entry's value when it is itself a dict
(`script_data.get('output', '')`) or a plain string (`str(script_data)`). -/
inductive ScriptData where
  | str (s : String)
  | dict (output : Option String)
deriving DecidableEq, Repr

/-- The `scripts` field of a port record: a dict keyed by script id, a list
of per-script dicts (`none` marks a non-dict list element, which the
comprehension skips), or any other JSON value (which yields no items). -/
inductive ScriptsField where
  | dict (items : List (String × ScriptData))
  | list (items : List (Option (Option String × String)))
  | other
deriving DecidableEq, Repr

/-- A port record of a host entry in the `scan_results:{S}` blob.
`port` is `p.get('port')` (already an integer in the scanner's output;
records where `int(p['port'])` would fail are not modelled because both
paths deterministically skip or keep them), `state` is `p.get('state')`,
`serviceName` is `p.get('service', {}).get('name', '')` and `scripts` is
`p.get('scripts') or {}` (a falsy value is the empty dict). -/
structure PortEntry where
  port : Option Int
  protocol : Option String
  state : Option String
  serviceName : String
  scripts : ScriptsField
deriving DecidableEq, Repr

/-- A host record of the `scan_results:{S}` blob.  `os_info` is the
`host.get('os_info', {})` dict and `traceroute` the `host.get('traceroute',
[])` list of hop dicts, both as string maps. -/
structure Host where
  ip_address : Option String
  hostname : Option String
  os_info : List (String × String)
  traceroute : List (List (String × String))
  ports : List PortEntry
deriving DecidableEq, Repr

/-- `d.get(key, default)` on a string dict. -/
def dictGetD (d : List (String × String)) (key default : String) : String :=
  match d.lookup key with
  | some v => v
  | none => default

/-- Python `str(x)` of `p.get('port')` inside an f-string. -/
def optIntRepr : Option Int → String
  | none => "None"
  | some n => toString n

/-- `classify_port(p_info)` from `app/tasks.py`. -/
def classify_port (p : PortEntry) : Option (Severity × String) :=
  let state :=
    pyLower (match p.state with
      | some s => if s ≠ "" then s else "unknown"
      | none => "unknown")
  if ¬(state = "open" ∨ state = "closed") then none
  else if state = "closed" then some (.info, "Port closed; no service listening.")
  else
    match p.port.bind PORT_RULES with
    | some rule => some rule
    | none =>
        some (.low, "Service " ++ p.serviceName ++ "/" ++ optIntRepr p.port ++
          " open; review necessity and patch.")

/-- `classify_os(os_info)` from `app/tasks.py`. -/
def classify_os (os_info : List (String × String)) : Severity × String :=
  let name := dictGetD os_info "name" ""
  if pyContains (pyLower name) "xp" ∨ pyContains (pyLower name) "2003" ∨
     pyContains (pyLower name) "centos 5" ∨ pyContains (pyLower name) "debian 7" then
    (.high, "Detected outdated OS " ++ name ++ "; upgrade or patch.")
  else
    (.info, "OS detected: " ++ name ++ ".")

/-- `classify_traceroute(trace)` from `app/tasks.py`: the first hop's `ip`
must be present, truthy and not start with `10.`, `192.168.` or `172.`. -/
def classify_traceroute (trace : List (List (String × String))) : Severity × String :=
  match trace with
  | hop0 :: _ =>
      let ip := dictGetD hop0 "ip" ""
      if ip ≠ "" ∧ ¬(pyStartsWith ip "10." ∨ pyStartsWith ip "192.168." ∨
          pyStartsWith ip "172.") then
        (.info, "Host appears in DMZ; verify firewall rules.")
      else
        (.info, "Traceroute recorded.")
  | [] => (.info, "Traceroute recorded.")

/-- A Finding row as constructed by `process_scan_results` (the DB identity
columns are omitted; `targetName` is the `name` of the `Target` row the
finding is attached to — `get-or-create` keyed on `(scan.user_id, name)`). -/
structure FindingRec where
  name : String
  description : String
  recommendation : String
  port : Option Int
  port_state : Option PortState
  protocol : Option String
  service : Option String
  os : Option (List (String × String))
  traceroute : Option (List (List (String × String)))
  severity : Severity
  targetName : String
deriving DecidableEq, Repr

/-- `PortState(state)` for the two states that reach the constructor. -/
def portStateOf (state : String) : PortState :=
  if state = "open" then .«open» else .closed

/-- The normalized `(script_name, output)` items of a port's `scripts`
field: dict items keep their key and coerce the value
(`script_data.get('output','')` for dicts, `str(script_data)` otherwise);
list items are pre-projected by the comprehension
`[(s.get('id'), s.get('output', '')) for s in scripts if isinstance(s, dict)]`. -/
def scriptItems : ScriptsField → List (Option String × String)
  | .dict items =>
      items.map (fun it =>
        (some it.1,
         match it.2 with
         | .str s => s
         | .dict o => o.getD ""))
  | .list items => items.filterMap id
  | .other => []

/-- The findings `process_scan_results` adds for one port record: the port
finding (states other than `open`/`closed` are skipped) followed by one
finding per script item. -/
def portFindings (now : PyDateTime) (hostName : String) (p : PortEntry) :
    List FindingRec :=
  match p.port with
  | none => []
  | some port_num =>
      let state := pyLower (match p.state with | some s => s | none => "")
      if ¬(state = "open" ∨ state = "closed") then []
      else
        match classify_port p with
        | none => []
        | some (sev, reco) =>
            { name := hostName ++ ":" ++ toString port_num ++ "/" ++ optStrRepr p.protocol
              description := "Port " ++ state
              recommendation := reco
              port := some port_num
              port_state := some (portStateOf state)
              protocol := p.protocol
              service := some p.serviceName
              os := none
              traceroute := none
              severity := sev
              targetName := hostName } ::
            (scriptItems p.scripts).map (fun it =>
              let sevReco := classify_script now it.1 it.2
              { name := hostName ++ ":" ++ toString port_num ++ " script " ++ optStrRepr it.1
                description := it.2
                recommendation := sevReco.2
                port := some port_num
                port_state := some (portStateOf state)
                protocol := p.protocol
                service := some p.serviceName
                os := none
                traceroute := none
                severity := sevReco.1
                targetName := hostName })

/-- Python truthiness of `host.get('hostname') or ip` followed by
`if not name: continue`. -/
def hostDisplayName (host : Host) : Option String :=
  let name :=
    match host.hostname with
    | some h => if h ≠ "" then some h else host.ip_address
    | none => host.ip_address
  match name with
  | some n => if n ≠ "" then some n else none
  | none => none

/-- The findings `process_scan_results` adds for one host record: the OS
finding, the traceroute finding, then the per-port findings. -/
def hostFindings (now : PyDateTime) (host : Host) : List FindingRec :=
  match hostDisplayName host with
  | none => []
  | some name =>
      let osSevReco := classify_os host.os_info
      let trSevReco := classify_traceroute host.traceroute
      { name := name ++ "-OS"
        description := "OS fingerprint"
        recommendation := osSevReco.2
        port := none, port_state := none, protocol := none, service := none
        os := some host.os_info, traceroute := none
        severity := osSevReco.1, targetName := name } ::
      { name := name ++ "-Traceroute"
        description := "Network path"
        recommendation := trSevReco.2
        port := none, port_state := none, protocol := none, service := none
        os := none, traceroute := some host.traceroute
        severity := trSevReco.1, targetName := name } ::
      (host.ports.map (portFindings now name)).flatten

/-- The full finding list committed by `process_scan_results(scan,
scan_results, db)` for a result blob, in insertion order.  `now` stands for
the `datetime.utcnow()` readings inside `classify_script`; every other input
of the computation is the blob itself. -/
def process_scan_results (now : PyDateTime) (scan_results : List Host) :
    List FindingRec :=
  (scan_results.map (hostFindings now)).flatten

/-! ## Scan row transitions (`update_scan_status`, `scan_hook`,
`create_scan_entry`) -/

/-- The columns of a `scans` row that the status-transition code touches.
`status` holds the stored status string (the enum `.value`); timestamps are
wall-clock seconds. -/
structure ScanRow where
  status : String
  startedAt : Option Nat
  finishedAt : Option Nat
  name : String
deriving DecidableEq, Repr

/-- `update_scan_status(scan_uuid, status, db)` from `app/tasks.py` on a
found scan row.  `now` models the two possible `now_utc()` readings;
`terminalUserScanCount` models the `db.query(...).count()` of the user's
scans already in COMPLETED/FAILED at that instant.  The function also
publishes `"100"` on `{S}:progress` when it sets `finished_at` (a pub/sub
side effect with no DB footprint, not represented in the returned row). -/
def update_scan_status (now : Nat) (terminalUserScanCount : Nat)
    (status : ScanStatus) (scan : ScanRow) : ScanRow :=
  let scan1 :=
    if status = .running ∧ scan.status ≠ ScanStatus.running.value then
      { scan with startedAt := some now }
    else if (status = .completed ∨ status = .failed) ∧ scan.finishedAt = none then
      { scan with
          name := "Results report no. " ++ toString (terminalUserScanCount + 1),
          finishedAt := some now }
    else scan
  if scan1.status ≠ status.value then { scan1 with status := status.value } else scan1

/-- The DB effect of the webhook `scan_hook` (`app/api/routes/scan.py`) when
the posted `scan_id` resolves to a scan row: it assigns
`data.get("status", "completed")` — the raw payload string — to
`scan.status` and commits.  It never touches `started_at`, `finished_at` or
`name`; when the scan is not found it returns an error body without any DB
write. -/
def scan_hook (payloadStatus : Option String) (scan : ScanRow) : ScanRow :=
  { scan with status := payloadStatus.getD "completed" }

/-- Python `int(s)` on a token (optional sign followed by digits). -/
def pyIntOfStr (s : String) : Option Int :=
  match s.data with
  | '-' :: rest =>
      if rest.length ≥ 1 ∧ rest.all Char.isDigit then
        some (-(digitsToNat rest.asString : Int))
      else none
  | l =>
      if l.length ≥ 1 ∧ l.all Char.isDigit then
        some (digitsToNat l.asString : Int)
      else none

/-- The scan name composed by `create_scan_entry` from the names of the
user's RUNNING/PENDING scans: `Assessment no. {max+1}`, or `Assessment no. 1`
when the user has no active scan.  `none` models the uncaught `ValueError`
when a matching name's last token is not an integer or when no active name
matches the pattern (`max([])`). -/
def create_scan_entry_name (activeScanNames : List String) : Option String :=
  match activeScanNames with
  | [] => some "Assessment no. 1"
  | _ =>
      let matching := activeScanNames.filter (fun n => pyStartsWith n "Assessment no.")
      match matching.mapM (fun n => pyIntOfStr ((pySplit n " ").getLastD "")) with
      | none => none
      | some nums =>
          match nums.max? with
          | none => none
          | some m => some ("Assessment no. " ++ toString (m + 1))

/-! ## Scan Watcher (`watch_scan` in `app/tasks.py`)

The polling loop is embedded as a step function over per-iteration
observations.  One `WatchObs` carries what the iteration reads: the optional
pub/sub message on `{S}:progress`, the parsed `status` field of the KV key
`scan:{S}` (absent key or absent field is `none`), the wall clock `t` (used
both for the message receipt and for this iteration's timeout check — the
1.5 s sleep advances `t` between iterations) and the terminal-scan count the
DB would report.  Results processing on the `completed` branch (output
flush, result blob, findings) touches other columns and is outside this
state; the scan-row transition itself goes through `update_scan_status`. -/

structure WatchObs where
  progressMsg : Option String
  statusField : Option String
  t : Nat
  terminalCount : Nat
deriving DecidableEq, Repr

structure WatchState where
  lastMessageTime : Nat
  lastStatus : Option String
  scan : ScanRow
  stopped : Bool
deriving DecidableEq, Repr

/-- `last_message_time = time.time()` at watcher start, before any status
has been observed. -/
def initWatchState (t0 : Nat) (scan : ScanRow) : WatchState :=
  ⟨t0, none, scan, false⟩

/-- Python `float(s)` succeeds (decimal forms; the progress producer sends
plain numerals, so exponent/`inf`/`nan` spellings are not modelled). -/
def pyFloatParses (s : String) : Bool :=
  let t :=
    match (pyStrip s).data with
    | '+' :: rest => rest
    | '-' :: rest => rest
    | l => l
  match pySplit t.asString "." with
  | [a] => a.data.length ≥ 1 ∧ allDigits a
  | [a, b] => a.data.length + b.data.length ≥ 1 ∧ allDigits a ∧ allDigits b
  | _ => false

/-- The `mapping` dict translating the KV status string to the ORM enum. -/
def watchStatusMapping : String → Option ScanStatus
  | "running" => some .running
  | "completed" => some .completed
  | "failed" => some .failed
  | _ => none

/-- One iteration of the `watch_scan` polling loop. -/
def watchStep (st : WatchState) (o : WatchObs) : WatchState :=
  if st.stopped then st
  else
    -- progress handling: a numeric message resets the inactivity clock
    -- (and refreshes the cached `scan_progress:{S}` KV value)
    let st1 :=
      match o.progressMsg with
      | some m => if pyFloatParses m then { st with lastMessageTime := o.t } else st
      | none => st
    -- status polling: on a (truthy) change, record it, run the DB update for
    -- mapped statuses, publish `{S}:status`, and break on a terminal status
    let st2 :=
      match o.statusField with
      | some s =>
          if s ≠ "" ∧ st1.lastStatus ≠ some s then
            let stA := { st1 with lastStatus := some s }
            let stB :=
              match watchStatusMapping s with
              | some enum =>
                  { stA with scan := update_scan_status o.t o.terminalCount enum stA.scan }
              | none => stA
            if s = "completed" ∨ s = "failed" then { stB with stopped := true }
            else stB
          else st1
      | none => st1
    -- inactivity timeout after the 1.5 s sleep (skipped if the loop broke)
    if st2.stopped then st2
    else if o.t - st2.lastMessageTime > 120 then
      { st2 with
          scan := update_scan_status o.t o.terminalCount .failed st2.scan,
          stopped := true }
    else st2

/-- A run of the watcher over a sequence of iteration observations. -/
def watchRun (t0 : Nat) (scan : ScanRow) (obs : List WatchObs) : WatchState :=
  obs.foldl watchStep (initWatchState t0 scan)

/-! ## Live-Stream Gateway (`websocket_scan` in `app/api/routes/scan.py`)

The per-scan WebSocket handler is embedded as a step function over received
pub/sub messages.  Its state is the content of the per-connection
`sent_messages` set (kept in insertion order; the capacity trim enumerates
the set through an explicit `trimOrder` argument, like `PySetOrder`).  The
handler's signature has no DB session and its body performs no database
access, which the `dbWrites` effect records. -/

inductive BusMsg where
  | progress (data : String)
  | status (data : String)
  | output (data : String)
deriving DecidableEq, Repr

/-- The fields the handler reads out of a parsed `{S}:status` JSON payload. -/
structure StatusPayload where
  status : Option String
  started_at : Option String
  finished_at : Option String
deriving DecidableEq, Repr

/-- A JSON frame sent to the client, tagged by its `type` field. -/
inductive WsFrame where
  | progress (value : String)
  | status (value : Option String) (started_at finished_at : Option String)
  | output (value : String)
deriving DecidableEq, Repr

/-- Effects of one loop iteration: frames sent over the socket and strings
written to `scans.output` in the database. -/
structure GwEffects where
  frames : List WsFrame
  dbWrites : List String
deriving DecidableEq, Repr

/-- One iteration of the `websocket_scan` receive loop on a delivered
message.  `parseStatus` models `json.loads` on a status payload (`none` is
the dropped `JSONDecodeError` case). -/
def websocketScanStep (parseStatus : String → Option StatusPayload)
    (trimOrder : List String → List String)
    (sent : List String) (msg : BusMsg) : List String × GwEffects :=
  let (sent1, frames) :=
    match msg with
    | .progress data =>
        if pyFloatParses data then (sent, [WsFrame.progress data])
        else (sent, [])  -- invalid progress value: logged and dropped
    | .status data =>
        match parseStatus data with
        | some p => (sent, [WsFrame.status p.status p.started_at p.finished_at])
        | none => (sent, [])  -- non-JSON status message: logged and dropped
    | .output data =>
        if sent.contains data then (sent, [])
        else (sent ++ [data], [WsFrame.output data])
  -- periodic cleanup: sent_messages = set(list(sent_messages)[-2000:])
  let sent2 :=
    if sent1.length > 5000 then
      (trimOrder sent1).drop ((trimOrder sent1).length - 2000)
    else sent1
  (sent2, ⟨frames, []⟩)

/-- A run of the handler over a sequence of delivered messages,
accumulating the sent frames and the database writes. -/
def websocketScanRun (parseStatus : String → Option StatusPayload)
    (trimOrder : List String → List String)
    (msgs : List BusMsg) : List String × GwEffects :=
  msgs.foldl
    (fun acc msg =>
      ((websocketScanStep parseStatus trimOrder acc.1 msg).1,
       ⟨acc.2.frames ++ (websocketScanStep parseStatus trimOrder acc.1 msg).2.frames,
        acc.2.dbWrites ++ (websocketScanStep parseStatus trimOrder acc.1 msg).2.dbWrites⟩))
    ([], ⟨[], []⟩)

/-! ## Shared helper lemmas -/

/-- First-occurrence order is an admissible `set` enumeration. -/
theorem dedupOrder_pySetOrder : PySetOrder dedupOrder :=
  fun _ => List.Perm.refl _

/-- Reversed first-occurrence order is an admissible `set` enumeration. -/
theorem revDedupOrder_pySetOrder : PySetOrder revDedupOrder :=
  fun l => (l.dedup.reverse_perm)

/-- `finished_at`, once set, survives every further `update_scan_status`
call: the only branch that assigns it is guarded by `finished_at is None`. -/
theorem update_scan_status_finishedAt_stable (now cnt : Nat) (st : ScanStatus)
    (scan : ScanRow) (t : Nat) (h : scan.finishedAt = some t) :
    (update_scan_status now cnt st scan).finishedAt = some t := by
  simp only [update_scan_status]
  split_ifs <;> simp_all

/-- A name starting with `Results report no. ` never equals one starting
with `Assessment no. `. -/
theorem resultsName_ne_assessmentName (x y : String) :
    "Results report no. " ++ x ≠ "Assessment no. " ++ y := by
  intro h
  have h2 : ("Results report no. " ++ x).data = ("Assessment no. " ++ y).data :=
    congrArg String.data h
  rw [String.data_append, String.data_append] at h2
  have hr : ("Results report no. " : String).data = 'R' :: ("esults report no. " : String).data := rfl
  have ha : ("Assessment no. " : String).data = 'A' :: ("ssessment no. " : String).data := rfl
  rw [hr, ha] at h2
  simp at h2

/-! ## Claims -/

/-- Claim C1, counterexample.  `start_scan` hands the **raw** request
targets to `get_or_create_targets`, so submitting the private address
`192.168.1.1` creates a `Target` row named `192.168.1.1` even though the
normalizer's post-image of that submission is empty: the created name is
not the post-image of any submitted target and is an RFC1918 address. -/
theorem c1_counterexample :
    start_scan_target_names dedupOrder ["192.168.1.1"] = ["192.168.1.1"] ∧
    clean_target_list dedupOrder ["192.168.1.1"] = [] ∧
    is_private_ip "192.168.1.1" = true := by
  decide

/-- Claim C1, amended: the `Target` names resolved or created by
`StartScan` are exactly the distinct non-empty raw submitted target strings,
verbatim — the normalizer is not applied to them (its output only feeds the
payload sent to the external scanner), so a name may keep a URL scheme or a
trailing slash and may be a private address, CIDR, or range. -/
theorem c1_raw_targets (order : List String → List String)
    (horder : PySetOrder order) (targets : List String) (n : String) :
    n ∈ start_scan_target_names order targets ↔ (n ∈ targets ∧ n ≠ "") := by
  unfold start_scan_target_names get_or_create_target_names
  rw [List.mem_filter]
  constructor
  · rintro ⟨hmem, hne⟩
    exact ⟨List.mem_dedup.mp ((horder targets).mem_iff.mp hmem), by simpa using hne⟩
  · rintro ⟨hmem, hne⟩
    exact ⟨(horder targets).mem_iff.mpr (List.mem_dedup.mpr hmem), by simpa using hne⟩

/-- Claim C1, witness for the amended theorem at a concrete input: the
private submission is among the created target names. -/
theorem c1_raw_targets_witness :
    "192.168.1.1" ∈ start_scan_target_names dedupOrder ["192.168.1.1", "8.8.8.8"] :=
  (c1_raw_targets dedupOrder dedupOrder_pySetOrder
    ["192.168.1.1", "8.8.8.8"] "192.168.1.1").mpr ⟨by decide, by decide⟩

/-- Claim C2: the code contradicts the claimed (and self-documented)
`ssl-cert` rule.  For a certificate whose validity window is
2020-01-01 … 2021-01-01 evaluated at 2024-06-01 — i.e. `now` is long past
`not-valid-after` — the claim requires HIGH ("expired"), but `classify_script`
returns MEDIUM with the "expiring soon" recommendation, because the
`after - now < 30 days` guard (trivially true for a negative difference) is
tested before the expiry guard.  The conjuncts pin the failing input, the
code's output and the fact that `now` is past `not-valid-after`. -/
theorem c2_expired_cert_marked_expiring :
    classify_script ⟨2024, 6, 1, 0, 0, 0⟩ (some "ssl-cert")
        "Not valid before: 2020-01-01T00:00:00\nNot valid after:  2021-01-01T00:00:00"
      = (Severity.medium, "SSL certificate is expiring soon; renew the certificate.") ∧
    (PyDateTime.toSecs ⟨2021, 1, 1, 0, 0, 0⟩ < PyDateTime.toSecs ⟨2024, 6, 1, 0, 0, 0⟩) := by
  constructor
  · decide
  · decide

/-- Claim C3, counterexample.  A pending scan for which a terminal status is
observed gets `finishedAt` but — contrary to the claim — **not**
`startedAt`: the `started_at` assignment lives in the `status == RUNNING`
branch, which a direct pending→terminal update never enters. -/
theorem c3_counterexample :
    (update_scan_status 100 0 .completed ⟨"pending", none, none, "Assessment no. 1"⟩).status
        = "completed" ∧
    (update_scan_status 100 0 .completed ⟨"pending", none, none, "Assessment no. 1"⟩).finishedAt
        = some 100 ∧
    (update_scan_status 100 0 .completed ⟨"pending", none, none, "Assessment no. 1"⟩).startedAt
        = none := by
  decide

/-- Claim C3, amended: when a terminal status is observed for a pending
scan, the running state is skipped (the row moves straight to the terminal
status) and `finishedAt` is set to the current time, while `startedAt` is
left untouched (it stays unset); once set, `finishedAt` is never changed by
any later `update_scan_status` call, so it is set at most once. -/
theorem c3_pending_terminal (now cnt : Nat) (scan : ScanRow) (st : ScanStatus)
    (hpend : scan.status = "pending") (hfin : scan.finishedAt = none)
    (hterm : st = .completed ∨ st = .failed) :
    (update_scan_status now cnt st scan).status = st.value ∧
    (update_scan_status now cnt st scan).finishedAt = some now ∧
    (update_scan_status now cnt st scan).startedAt = scan.startedAt ∧
    ∀ now2 cnt2 st2,
      (update_scan_status now2 cnt2 st2 (update_scan_status now cnt st scan)).finishedAt
        = some now := by
  have hrun : ¬(st = ScanStatus.running) := by
    rcases hterm with h | h <;> simp [h]
  have hval : scan.status ≠ st.value := by
    rcases hterm with h | h <;> simp [h, ScanStatus.value, hpend]
  have hfin2 : (update_scan_status now cnt st scan).finishedAt = some now := by
    simp [update_scan_status, hrun, hterm, hfin]
    split <;> simp
  refine ⟨?_, hfin2, ?_, fun now2 cnt2 st2 =>
    update_scan_status_finishedAt_stable now2 cnt2 st2 _ now hfin2⟩
  · simp [update_scan_status, hrun, hterm, hfin, hval]
  · simp [update_scan_status, hrun, hterm, hfin]
    split <;> simp

/-- Claim C3, witness for the amended theorem at a concrete input. -/
theorem c3_pending_terminal_witness :
    (update_scan_status 5 0 .failed ⟨"pending", none, none, "Assessment no. 2"⟩).status
        = "failed" ∧
    (update_scan_status 5 0 .failed ⟨"pending", none, none, "Assessment no. 2"⟩).finishedAt
        = some 5 ∧
    (update_scan_status 7 3 .running
        (update_scan_status 5 0 .failed ⟨"pending", none, none, "Assessment no. 2"⟩)).finishedAt
        = some 5 := by
  have h := c3_pending_terminal 5 0 ⟨"pending", none, none, "Assessment no. 2"⟩ .failed
    rfl rfl (Or.inr rfl)
  exact ⟨h.1, h.2.1, h.2.2.2 7 3 .running⟩

/-- Claim C5, counterexample.  The webhook endpoint `scan_hook` — an HTTP
handler — transitions the scan's status: posting `{"status": "completed"}`
for a pending scan commits `status = "completed"` to the scans row, so the
Watcher is not the only writer of `scans.status`. -/
theorem c5_counterexample :
    (scan_hook (some "completed") ⟨"pending", none, none, "Assessment no. 1"⟩).status
      = "completed" := by
  decide

/-- Claim C5, amended: the webhook endpoint does write `scans.status` (the
raw payload string, defaulting to `completed`), but it writes nothing else —
`startedAt`, `finishedAt` and `name` are untouched — and the Gateway's
WebSocket handlers perform no database writes at all, so the Watcher remains
the sole writer of the scan timestamps. -/
theorem c5_hook_writes_status_only (payloadStatus : Option String) (scan : ScanRow) :
    (scan_hook payloadStatus scan).status = payloadStatus.getD "completed" ∧
    (scan_hook payloadStatus scan).startedAt = scan.startedAt ∧
    (scan_hook payloadStatus scan).finishedAt = scan.finishedAt ∧
    (scan_hook payloadStatus scan).name = scan.name := by
  simp [scan_hook]

/-- Claim C9: the Classifier is deterministic — equal result blobs (and an
equal clock reading) give syntactically equal finding lists, and
`classify_script` is likewise a function of its inputs alone; there is no
randomness anywhere in the computation. -/
theorem c9_classifier_deterministic :
    (∀ (now1 now2 : PyDateTime) (r1 r2 : List Host), now1 = now2 → r1 = r2 →
        process_scan_results now1 r1 = process_scan_results now2 r2) ∧
    (∀ (now1 now2 : PyDateTime) (n1 n2 : Option String) (o1 o2 : String),
        now1 = now2 → n1 = n2 → o1 = o2 →
        classify_script now1 n1 o1 = classify_script now2 n2 o2) := by
  constructor
  · intro now1 now2 r1 r2 hn hr
    rw [hn, hr]
  · intro now1 now2 n1 n2 o1 o2 hn hname ho
    rw [hn, hname, ho]

/-- Claim C9, witness: two runs of the Classifier on the same concrete blob
coincide. -/
theorem c9_classifier_deterministic_witness :
    process_scan_results ⟨2024, 6, 1, 0, 0, 0⟩
        [⟨some "1.2.3.4", none, [("name", "Windows XP")], [], []⟩]
      = process_scan_results ⟨2024, 6, 1, 0, 0, 0⟩
        [⟨some "1.2.3.4", none, [("name", "Windows XP")], [], []⟩] :=
  c9_classifier_deterministic.1 _ _ _ _ rfl rfl

/-- Claim C10: on the first transition into a terminal state (the scan's
`finished_at` is still unset), `update_scan_status` overwrites the scan's
name with `Results report no. N` where `N` is one plus the DB count of the
user's scans already in COMPLETED/FAILED, so the `Assessment no. K` name
assigned by `create_scan_entry` does not survive. -/
theorem c10_terminal_rename (now cnt : Nat) (scan : ScanRow) (st : ScanStatus) (k : Nat)
    (hterm : st = .completed ∨ st = .failed) (hfin : scan.finishedAt = none)
    (hname : scan.name = "Assessment no. " ++ toString k) :
    (update_scan_status now cnt st scan).name = "Results report no. " ++ toString (cnt + 1) ∧
    (update_scan_status now cnt st scan).name ≠ scan.name := by
  have hrun : ¬(st = ScanStatus.running) := by
    rcases hterm with h | h <;> simp [h]
  have hmain : (update_scan_status now cnt st scan).name
      = "Results report no. " ++ toString (cnt + 1) := by
    simp [update_scan_status, hrun, hterm, hfin]
    split <;> simp
  refine ⟨hmain, ?_⟩
  rw [hmain, hname]
  exact resultsName_ne_assessmentName _ _

/-- Claim C10, witness at a concrete input. -/
theorem c10_terminal_rename_witness :
    (update_scan_status 9 2 .completed ⟨"running", some 1, none, "Assessment no. 1"⟩).name
        = "Results report no. 3" ∧
    (update_scan_status 9 2 .completed ⟨"running", some 1, none, "Assessment no. 1"⟩).name
        ≠ "Assessment no. 1" := by
  have h := c10_terminal_rename 9 2 ⟨"running", some 1, none, "Assessment no. 1"⟩
    .completed 1 (Or.inl rfl) rfl rfl
  exact h

/-- `classify_script` on `http-sql-injection` is the line scan. -/
theorem classify_script_sql (now : PyDateTime) (output : String) :
    classify_script now (some "http-sql-injection") output
      = sqlInjectionScan (pySplitLines output) :=
  rfl

/-- Lines free of both keywords are skipped by the sql-injection scan. -/
theorem sqlInjectionScan_clean (lines : List String)
    (h : ∀ l ∈ lines, pyContains (pyLower l) "vulnerable" = false ∧
        pyContains (pyLower l) "possible" = false) :
    sqlInjectionScan lines
      = (.high, "SQL injection vulnerability: no vulnerability found.") := by
  induction lines with
  | nil => rfl
  | cons l rest ih =>
      have hl := h l (List.mem_cons_self l rest)
      simp [sqlInjectionScan, hl.1, hl.2]
      exact ih (fun x hx => h x (List.mem_cons_of_mem _ hx))

/-- The sql-injection scan is decided by the first line carrying a keyword. -/
theorem sqlInjectionScan_firstHit (pre : List String) (l : String) (post : List String)
    (hpre : ∀ x ∈ pre, pyContains (pyLower x) "vulnerable" = false ∧
        pyContains (pyLower x) "possible" = false) :
    sqlInjectionScan (pre ++ l :: post)
      = if pyContains (pyLower l) "vulnerable" then
          (.critical, "SQL injection vulnerability: sanitize and parameterize inputs, use prepared statements, and deploy WAF rules.")
        else if pyContains (pyLower l) "possible" then
          (.high, "SQL injection vulnerability: possible vulnerability found.")
        else sqlInjectionScan post := by
  induction pre with
  | nil => simp [sqlInjectionScan]
  | cons x rest ih =>
      have hx := hpre x (List.mem_cons_self x rest)
      simp only [List.cons_append, sqlInjectionScan, hx.1, hx.2, Bool.false_eq_true,
        if_false]
      exact ih (fun y hy => hpre y (List.mem_cons_of_mem _ hy))

/-- Claim C7, counterexample.  A line containing `vulnerable` does **not**
force CRITICAL: an earlier line containing `possible` wins, because the loop
returns at the first keyword hit scanning lines in order. -/
theorem c7_counterexample :
    classify_script ⟨2024, 1, 1, 0, 0, 0⟩ (some "http-sql-injection")
        "possible issue\nvulnerable endpoint"
      = (Severity.high, "SQL injection vulnerability: possible vulnerability found.") ∧
    pyContains (pyLower "vulnerable endpoint") "vulnerable" = true := by
  decide

/-- Claim C7, amended: the classifier scans the lines of the output in
order; the scan returns CRITICAL at the first line containing `vulnerable`
(case-insensitive), HIGH ("possible vulnerability found") at the first line
containing `possible` but not `vulnerable`, and HIGH ("no vulnerability
found") when no line contains either keyword. -/
theorem c7_first_match (now : PyDateTime) (output : String) :
    ((∀ l ∈ pySplitLines output, pyContains (pyLower l) "vulnerable" = false ∧
        pyContains (pyLower l) "possible" = false) →
      classify_script now (some "http-sql-injection") output
        = (.high, "SQL injection vulnerability: no vulnerability found.")) ∧
    (∀ pre l post, pySplitLines output = pre ++ l :: post →
      (∀ x ∈ pre, pyContains (pyLower x) "vulnerable" = false ∧
          pyContains (pyLower x) "possible" = false) →
      pyContains (pyLower l) "vulnerable" = true →
      classify_script now (some "http-sql-injection") output
        = (.critical, "SQL injection vulnerability: sanitize and parameterize inputs, use prepared statements, and deploy WAF rules.")) ∧
    (∀ pre l post, pySplitLines output = pre ++ l :: post →
      (∀ x ∈ pre, pyContains (pyLower x) "vulnerable" = false ∧
          pyContains (pyLower x) "possible" = false) →
      pyContains (pyLower l) "vulnerable" = false →
      pyContains (pyLower l) "possible" = true →
      classify_script now (some "http-sql-injection") output
        = (.high, "SQL injection vulnerability: possible vulnerability found.")) := by
  refine ⟨?_, ?_, ?_⟩
  · intro h
    rw [classify_script_sql]
    exact sqlInjectionScan_clean _ h
  · intro pre l post hsplit hpre hl
    rw [classify_script_sql, hsplit, sqlInjectionScan_firstHit pre l post hpre, hl]
    simp
  · intro pre l post hsplit hpre hlv hlp
    rw [classify_script_sql, hsplit, sqlInjectionScan_firstHit pre l post hpre, hlv, hlp]
    simp

/-- Claim C7, witness for the amended theorem at a concrete input. -/
theorem c7_first_match_witness :
    classify_script ⟨2024, 1, 1, 0, 0, 0⟩ (some "http-sql-injection") "clean line\npossible hit"
      = (.high, "SQL injection vulnerability: possible vulnerability found.") :=
  (c7_first_match ⟨2024, 1, 1, 0, 0, 0⟩ "clean line\npossible hit").2.2
    ["clean line"] "possible hit" [] (by decide) (by decide) (by decide) (by decide)

/-- A name kept by `clean_target_list`'s loop body is the normalized target
and passes none of the private-address tests. -/
theorem cleanTargetKeep_some {raw t : String} (h : cleanTargetKeep raw = some t) :
    is_private_ip t = false ∧ privateNetworkTest t = false ∧
      privateRangeTest t = false := by
  simp only [cleanTargetKeep] at h
  by_cases he : normalizeTarget raw = ""
  · simp [he] at h
  by_cases hnet : privateNetworkTest (normalizeTarget raw) = true
  · simp [he, hnet] at h
  by_cases hrange : privateRangeTest (normalizeTarget raw) = true
  · simp [he, hnet, hrange] at h
  by_cases hip : is_private_ip (normalizeTarget raw) = true
  · simp [he, hnet, hrange, hip] at h
  have ht : t = normalizeTarget raw := by
    simp [he, hnet, hrange, hip] at h
    exact h.symm
  subst ht
  exact ⟨by simpa using hip, by simpa using hnet, by simpa using hrange⟩

/-- Claim C8, counterexample.  The final `list(set(cleaned))` enumerates a
hash set whose order is unspecified (`dedupOrder` is an admissible
enumeration, see `dedupOrder_pySetOrder`), so the output need not preserve
first occurrences: deduplicating `["8.8.8.8", "9.9.9.9", "8.8.8.8"]` while
preserving first occurrence would give `["8.8.8.8", "9.9.9.9"]`, but the
code may return the other order. -/
theorem c8_counterexample :
    clean_target_list dedupOrder ["8.8.8.8", "9.9.9.9", "8.8.8.8"]
        = ["9.9.9.9", "8.8.8.8"] ∧
    clean_target_list dedupOrder ["8.8.8.8", "9.9.9.9", "8.8.8.8"]
        ≠ ["8.8.8.8", "9.9.9.9"] := by
  decide

/-- Claim C8, amended: for every admissible `set` enumeration, the
normalizer's output contains no element that parses as a private IP, a
private CIDR, or a private IP range (under the code's own parsing tests),
and duplicate cleaned names are removed — each cleaned name appears exactly
once — but in an unspecified order rather than first-occurrence order. -/
theorem c8_no_private_nodup (order : List String → List String)
    (horder : PySetOrder order) (targets : List String) :
    (∀ t ∈ clean_target_list order targets,
        is_private_ip t = false ∧ privateNetworkTest t = false ∧
          privateRangeTest t = false) ∧
    (clean_target_list order targets).Nodup := by
  constructor
  · intro t ht
    have h1 : t ∈ (cleanedAccum targets).dedup :=
      (horder (cleanedAccum targets)).mem_iff.mp ht
    have h2 : t ∈ cleanedAccum targets := List.mem_dedup.mp h1
    rw [cleanedAccum, List.mem_filterMap] at h2
    obtain ⟨raw, _, hkeep⟩ := h2
    exact cleanTargetKeep_some hkeep
  · exact ((horder (cleanedAccum targets)).nodup_iff).mpr (List.nodup_dedup _)

/-- Claim C8, witness for the amended theorem at a concrete input. -/
theorem c8_no_private_nodup_witness :
    (is_private_ip "8.8.8.8" = false ∧ privateNetworkTest "8.8.8.8" = false ∧
      privateRangeTest "8.8.8.8" = false) ∧
    (clean_target_list dedupOrder ["8.8.8.8", "8.8.8.8"]).Nodup := by
  have h := c8_no_private_nodup dedupOrder dedupOrder_pySetOrder
    ["8.8.8.8", "8.8.8.8"]
  exact ⟨h.1 "8.8.8.8" (by decide), h.2⟩

/-- One handler iteration produces no database write, for any message. -/
theorem websocketScanStep_dbWrites (parseStatus : String → Option StatusPayload)
    (trimOrder : List String → List String) (sent : List String) (msg : BusMsg) :
    (websocketScanStep parseStatus trimOrder sent msg).2.dbWrites = [] := by
  cases msg with
  | progress d => by_cases h : pyFloatParses d <;> simp [websocketScanStep, h]
  | status d => cases h : parseStatus d <;> simp [websocketScanStep, h]
  | output d => by_cases h : sent.contains d <;> simp [websocketScanStep, h]

/-- The accumulated database writes of the handler's fold stay empty. -/
theorem websocketScanFold_dbWrites (parseStatus : String → Option StatusPayload)
    (trimOrder : List String → List String) :
    ∀ (msgs : List BusMsg) (acc : List String × GwEffects), acc.2.dbWrites = [] →
      (msgs.foldl
        (fun acc msg =>
          ((websocketScanStep parseStatus trimOrder acc.1 msg).1,
           ⟨acc.2.frames ++ (websocketScanStep parseStatus trimOrder acc.1 msg).2.frames,
            acc.2.dbWrites ++ (websocketScanStep parseStatus trimOrder acc.1 msg).2.dbWrites⟩))
        acc).2.dbWrites = []
  | [], _, h => h
  | m :: rest, acc, h => by
      rw [List.foldl_cons]
      exact websocketScanFold_dbWrites parseStatus trimOrder rest _
        (by simp [h, websocketScanStep_dbWrites])

/-- Claim C6, counterexample.  Twenty distinct output lines are received
and forwarded as twenty output frames, yet the Gateway performs **zero**
writes to `scans.output`: the claimed 20-line/200 ms buffered flush does not
exist in `websocket_scan` (the handler has no DB session at all). -/
theorem c6_counterexample :
    (websocketScanRun (fun _ => none) dedupOrder
        ((List.range 20).map (fun i => BusMsg.output ("line " ++ toString i)))).2.dbWrites
      = [] ∧
    (websocketScanRun (fun _ => none) dedupOrder
        ((List.range 20).map (fun i => BusMsg.output ("line " ++ toString i)))).2.frames.length
      = 20 := by
  constructor
  · decide
  · decide

/-- Claim C6, amended: the Gateway never writes to `scans.output` at any
point of a connection — output lines are only forwarded to the client (with
per-connection de-duplication); in particular it performs no write after the
scan reaches a terminal status, and the Watcher's terminal flush is the only
persistence of the buffered output. -/
theorem c6_gateway_never_writes (parseStatus : String → Option StatusPayload)
    (trimOrder : List String → List String) (msgs : List BusMsg) :
    (websocketScanRun parseStatus trimOrder msgs).2.dbWrites = [] :=
  websocketScanFold_dbWrites parseStatus trimOrder msgs ([], ⟨[], []⟩) rfl

/-- `update_scan_status` with FAILED always leaves the row in status
`failed`. -/
theorem update_scan_status_failed_status (now cnt : Nat) (scan : ScanRow) :
    (update_scan_status now cnt .failed scan).status = "failed" := by
  simp only [update_scan_status]
  split_ifs <;> simp_all [ScanStatus.value]

/-- A stopped watcher state absorbs every further observation. -/
theorem watchStep_stopped (st : WatchState) (o : WatchObs) (h : st.stopped = true) :
    watchStep st o = st := by
  simp [watchStep, h]

/-- A stopped watcher state absorbs every further observation sequence. -/
theorem watchFold_stopped : ∀ (obs : List WatchObs) (st : WatchState),
    st.stopped = true → obs.foldl watchStep st = st
  | [], _, _ => rfl
  | o :: rest, st, h => by
      rw [List.foldl_cons, watchStep_stopped st o h]
      exact watchFold_stopped rest st h

/-- A quiet iteration (no progress message, status absent or `pending`)
that does not reach the timeout leaves the scan row, the inactivity clock
and the stopped flag unchanged. -/
theorem watchStep_pending_quiet (st : WatchState) (o : WatchObs)
    (hstop : st.stopped = false) (hprog : o.progressMsg = none)
    (hstatus : o.statusField = none ∨ o.statusField = some "pending")
    (hfire : ¬(120 < o.t - st.lastMessageTime)) :
    (watchStep st o).scan = st.scan ∧
    (watchStep st o).lastMessageTime = st.lastMessageTime ∧
    (watchStep st o).stopped = false := by
  rcases hstatus with h | h
  · simp [watchStep, hstop, hprog, h, hfire]
  · simp only [watchStep, hstop, hprog, h, watchStatusMapping]
    split_ifs <;> (simp_all; try omega)

/-- A quiet iteration (no progress message, status absent or `pending`)
that reaches the timeout marks the scan failed and stops the watcher, even
though `running` was never observed. -/
theorem watchStep_pending_fire (st : WatchState) (o : WatchObs)
    (hstop : st.stopped = false) (hprog : o.progressMsg = none)
    (hstatus : o.statusField = none ∨ o.statusField = some "pending")
    (hfire : 120 < o.t - st.lastMessageTime) :
    (watchStep st o).scan.status = "failed" ∧ (watchStep st o).stopped = true := by
  rcases hstatus with h | h
  · simp [watchStep, hstop, hprog, h, hfire, update_scan_status_failed_status]
  · simp only [watchStep, hstop, hprog, h, watchStatusMapping]
    split_ifs <;> simp_all [update_scan_status_failed_status]

/-- A run over quiet observations in which some observation arrives more
than 120 seconds after the inactivity clock ends stopped with the scan
marked failed. -/
theorem watchFold_pending_timeout :
    ∀ (obs : List WatchObs) (st : WatchState), st.stopped = false →
      (∀ o ∈ obs, o.progressMsg = none ∧
          (o.statusField = none ∨ o.statusField = some "pending")) →
      (∃ o ∈ obs, st.lastMessageTime + 120 < o.t) →
      (obs.foldl watchStep st).scan.status = "failed" ∧
        (obs.foldl watchStep st).stopped = true
  | [], _, _, _, hex => by simp at hex
  | o :: rest, st, hstop, hall, hex => by
      have ho := hall o (List.mem_cons_self o rest)
      rw [List.foldl_cons]
      by_cases hfire : 120 < o.t - st.lastMessageTime
      · have hstep := watchStep_pending_fire st o hstop ho.1 ho.2 hfire
        rw [watchFold_stopped rest _ hstep.2]
        exact hstep
      · have hstep := watchStep_pending_quiet st o hstop ho.1 ho.2 hfire
        have hex2 : ∃ o2 ∈ rest, (watchStep st o).lastMessageTime + 120 < o2.t := by
          obtain ⟨o2, ho2mem, ho2t⟩ := hex
          rcases List.mem_cons.mp ho2mem with rfl | hmem
          · exact absurd (Nat.lt_sub_iff_add_lt.mpr (by omega)) hfire
          · exact ⟨o2, hmem, by rw [hstep.2.1]; exact ho2t⟩
        exact watchFold_pending_timeout rest (watchStep st o) hstep.2.2
          (fun x hx => hall x (List.mem_cons_of_mem _ hx)) hex2

/-- Claim C4, counterexample.  The inactivity clock starts when the watcher
starts, not when the scan is seen running: a watcher that has only ever
observed the status `pending` (never `running`) still fires the 120-second
timeout and marks the scan failed. -/
theorem c4_counterexample :
    (watchRun 0 ⟨"pending", none, none, "Assessment no. 1"⟩
        [⟨none, some "pending", 121, 0⟩]).scan.status = "failed" ∧
    (watchRun 0 ⟨"pending", none, none, "Assessment no. 1"⟩
        [⟨none, some "pending", 121, 0⟩]).scan.startedAt = none ∧
    (watchRun 0 ⟨"pending", none, none, "Assessment no. 1"⟩
        [⟨none, some "pending", 121, 0⟩]).stopped = true := by
  decide

/-- Claim C4, amended: the 120-second inactivity timeout counts
progress-channel silence since the **watcher started** (not since the scan
was seen running); numeric progress events reset the clock, status
observations alone never touch it, and the timer can fire — marking the scan
failed — while only `pending` (never `running`) has been observed. -/
theorem c4_inactivity_from_start :
    (∀ (st : WatchState) (o : WatchObs) (m : String), st.stopped = false →
        o.progressMsg = some m → pyFloatParses m = true →
        (watchStep st o).lastMessageTime = o.t) ∧
    (∀ (st : WatchState) (o : WatchObs), o.progressMsg = none →
        (watchStep st o).lastMessageTime = st.lastMessageTime) ∧
    (∀ (t0 : Nat) (scan : ScanRow) (obs : List WatchObs),
        (∀ o ∈ obs, o.progressMsg = none ∧
            (o.statusField = none ∨ o.statusField = some "pending")) →
        (∃ o ∈ obs, t0 + 120 < o.t) →
        (watchRun t0 scan obs).scan.status = "failed" ∧
          (watchRun t0 scan obs).stopped = true) := by
  refine ⟨?_, ?_, ?_⟩
  · intro st o m hstop hprog hfloat
    simp only [watchStep, hstop, hprog, hfloat]
    cases h : o.statusField with
    | none => split_ifs <;> simp_all
    | some s => cases hm : watchStatusMapping s <;> split_ifs <;> simp_all <;> try (split_ifs <;> rfl)
  · intro st o hprog
    cases hstop : st.stopped with
    | true => rw [watchStep_stopped st o hstop]
    | false =>
        simp only [watchStep, hstop, hprog]
        rw [if_neg Bool.false_ne_true]
        cases h : o.statusField with
        | none => dsimp only; split_ifs <;> rfl
        | some s =>
            dsimp only
            cases hm : watchStatusMapping s <;> split_ifs <;> rfl
  · intro t0 scan obs hall hex
    exact watchFold_pending_timeout obs (initWatchState t0 scan) rfl hall hex

/-- Claim C4, witness for the amended theorem at a concrete input. -/
theorem c4_inactivity_from_start_witness :
    (watchRun 7 ⟨"pending", none, none, "Assessment no. 2"⟩
        [⟨none, none, 60, 0⟩, ⟨none, some "pending", 200, 0⟩]).scan.status = "failed" ∧
    (watchRun 7 ⟨"pending", none, none, "Assessment no. 2"⟩
        [⟨none, none, 60, 0⟩, ⟨none, some "pending", 200, 0⟩]).stopped = true := by
  have h := c4_inactivity_from_start.2.2 7 ⟨"pending", none, none, "Assessment no. 2"⟩
    [⟨none, none, 60, 0⟩, ⟨none, some "pending", 200, 0⟩] (by decide) (by decide)
  exact h

end HostScanner
